import Mathlib

/-!
Verification development for the Wanderlust Travel search/result consistency
controller (src/assets/js/script.js and src/assets/js/features.js).

The JavaScript is shallowly embedded: pure helpers become Lean functions,
the DOM/event-loop behaviour of the two search surfaces becomes an explicit
state machine (`AppState`, `step`), and the network transport is an explicit
parameter (`Transport`).  Machine numbers are modelled as `Nat`/`Int`; string
lengths follow JavaScript's UTF-16 `.length` via `utf16Len`.
-/

/- ──────────────────────────────────────────────
   JavaScript string primitives
   ────────────────────────────────────────────── -/

/-- Code points matched by JavaScript's regex class `\s`, which is also the
set stripped by `String.prototype.trim`. -/
def jsWhitespace (c : Char) : Bool :=
  let n := c.toNat
  (0x9 ≤ n && n ≤ 0xD) || n = 0x20 || n = 0xA0 || n = 0x1680 ||
  (0x2000 ≤ n && n ≤ 0x200A) || n = 0x2028 || n = 0x2029 ||
  n = 0x202F || n = 0x205F || n = 0x3000 || n = 0xFEFF

/-- JavaScript `value.trim()`: strip `jsWhitespace` from both ends. -/
def jsTrim (s : String) : String :=
  String.mk (((s.toList.dropWhile jsWhitespace).reverse.dropWhile jsWhitespace).reverse)

/-- UTF-16 code units contributed by one code point: astral code points
(≥ U+10000) are a surrogate pair. -/
def charUnits (c : Char) : Nat :=
  if 0x10000 ≤ c.toNat then 2 else 1

/-- JavaScript `string.length` counts UTF-16 code units. -/
def utf16Len (s : String) : Nat :=
  (s.toList.map charUnits).sum

/- ──────────────────────────────────────────────
   InputValidator — validateSearchInput (script.js lines 121-158)
   ────────────────────────────────────────────── -/

/-- Return shape of `validateSearchInput`: `{ valid, message }`. -/
structure ValidationResult where
  valid : Bool
  message : String
deriving DecidableEq, Repr

/-- The character class of the source regex `/^[a-zA-ZÀ-ÿ\s\-']+$/`:
ASCII letters, the code points U+00C0 through U+00FF, JavaScript whitespace,
hyphen (U+002D) and apostrophe (U+0027). -/
def allowedSearchChar (c : Char) : Bool :=
  let n := c.toNat
  (0x41 ≤ n && n ≤ 0x5A) || (0x61 ≤ n && n ≤ 0x7A) ||
  (0xC0 ≤ n && n ≤ 0xFF) || jsWhitespace c || n = 0x2D || n = 0x27

/-- Embedding of `validateSearchInput` (script.js lines 121-158).
JavaScript `!value` on a string is true exactly when the string is empty,
so the presence check is `value = "" or trim(value) = ""`. -/
def validateSearchInput (value : String) : ValidationResult :=
  if value = "" || jsTrim value = "" then
    { valid := false, message := "Please enter a country name to search." }
  else
    let trimmed := jsTrim value
    if utf16Len trimmed < 2 then
      { valid := false, message := "Search must be at least 2 characters long." }
    else if utf16Len trimmed > 100 then
      { valid := false, message := "Search term is too long. Please shorten it." }
    else if !(trimmed.toList.all allowedSearchChar) then
      { valid := false, message := "Please enter a valid country name (letters only)." }
    else
      { valid := true, message := "" }

/-- Declarative form of the validity condition actually implemented by
`validateSearchInput`: trimmed UTF-16 length in [2,100] and every character in
the regex class `[a-zA-ZÀ-ÿ\s\-']`. -/
def codeValidPred (s : String) : Bool :=
  let t := jsTrim s
  decide (2 ≤ utf16Len t) && decide (utf16Len t ≤ 100) && t.toList.all allowedSearchChar

/- ──────────────────────────────────────────────
   Raw country payloads (REST Countries response objects)
   ────────────────────────────────────────────── -/

/-- A raw country object as consumed by the code.  `Option` marks fields the
code guards with truthiness; `capital` uses `[]` for an absent or empty
capital array (the code treats both the same: `country.capital &&
country.capital.length > 0`).  `currencies`/`languages` hold the display
names in the object's insertion order; an absent mapping is `none` and a
present-but-empty mapping is `some []` (the code distinguishes those).
Coordinates are modelled as `Int`; the claims only use their presence and
identity, never float arithmetic. -/
structure RawCountry where
  name : Option String
  flagsSvg : Option String
  flagsPng : Option String
  region : Option String
  subregion : Option String
  population : Option Nat
  capital : List String
  currencies : Option (List String)
  languages : Option (List String)
  latlng : Option (List Int)
deriving DecidableEq, Repr

/- ──────────────────────────────────────────────
   RequestCoordinator — searchCountries (script.js lines 182-246)
   ────────────────────────────────────────────── -/

/-- Result of `await response.json()` on a response the code decided to parse:
a JSON array, some other JSON value (`null`, object, number, …; the code's
`!data || !Array.isArray(data)` guard treats them all the same way), a JSON
syntax failure (the promise rejects with `SyntaxError`), or a rejection with
`AbortError` because the signal fired while the body was being read. -/
inductive JsonBody
  | arr (xs : List RawCountry)
  | nonArr
  | parseError
  | parseAbort
deriving DecidableEq, Repr

/-- What the transport did for one request: `fetch` rejected with
`AbortError`, `fetch` rejected with a network failure, or a response with an
HTTP status arrived (its body is parsed only on the 2xx path). -/
inductive Transport
  | abortedFetch
  | failed
  | resp (status : Nat) (body : JsonBody)
deriving DecidableEq, Repr

/-- The info message shown on HTTP 404 (script.js line 206); note the code
interpolates the raw, untrimmed query. -/
def noCountriesMsg (q : String) : String :=
  "No countries found matching \"" ++ q ++ "\". Try a different search."

/-- The info message shown on a 2xx response with an empty or non-array
payload (script.js line 220). -/
def noResultsMsg : String :=
  "No results found. Try another search."

/-- The error message shown on transport/HTTP failure (script.js line 236). -/
def netErrorMsg : String :=
  "Unable to load destinations. Please check your internet connection and try again."

/-- Observable result of one `searchCountries` run: the returned array and
the feedback message (message text, css type) it showed, if any. -/
structure SCResult where
  ret : List RawCountry
  feedback : Option (String × String)
deriving DecidableEq, Repr

/-- Embedding of the asynchronous body of `searchCountries` (script.js lines
193-245), as a function of what the transport did.  `response.ok` is
`200 ≤ status ≤ 299`.  Non-ok: 404 shows the info message and returns `[]`;
any other status throws, and the catch block (the thrown `Error` is not an
`AbortError`) shows the error message.  On the 2xx path `response.json()` may
reject with `AbortError` (silently return `[]`) or `SyntaxError` (caught:
error message); a parsed payload that is falsy, not an array, or an empty
array shows the info message; a non-empty array is returned as-is. -/
def searchCountries (query : String) (t : Transport) : SCResult :=
  match t with
  | Transport.abortedFetch => { ret := [], feedback := none }
  | Transport.failed => { ret := [], feedback := some (netErrorMsg, "error") }
  | Transport.resp status body =>
    if !(200 ≤ status && status ≤ 299) then
      if status = 404 then
        { ret := [], feedback := some (noCountriesMsg query, "info") }
      else
        { ret := [], feedback := some (netErrorMsg, "error") }
    else
      match body with
      | JsonBody.parseAbort => { ret := [], feedback := none }
      | JsonBody.parseError => { ret := [], feedback := some (netErrorMsg, "error") }
      | JsonBody.nonArr => { ret := [], feedback := some (noResultsMsg, "info") }
      | JsonBody.arr [] => { ret := [], feedback := some (noResultsMsg, "info") }
      | JsonBody.arr (x :: xs) => { ret := x :: xs, feedback := none }

/-- The spec's `LookupOutcome` tagged union. -/
inductive Outcome
  | success (xs : List RawCountry)
  | empty
  | networkError
  | cancelled
deriving DecidableEq, Repr

/-- Whether an outcome is the `Success` case. -/
def isSuccessOutcome : Outcome → Bool
  | Outcome.success _ => true
  | _ => false

/-- Classify a `searchCountries` run by its observables, following the spec's
definitions: a non-empty returned array is `Success`; an empty return with no
message is the silent `Cancelled` path; an empty return with an error-typed
message is `NetworkError`; with an info-typed message it is `Empty`. -/
def codeOutcome (r : SCResult) : Outcome :=
  match r.ret with
  | x :: xs => Outcome.success (x :: xs)
  | [] =>
    match r.feedback with
    | none => Outcome.cancelled
    | some mt => if mt.2 = "error" then Outcome.networkError else Outcome.empty

/-- The outcome mapping exactly as claim C4 states it: 404 to Empty; other
non-2xx or transport failure to NetworkError; observed cancellation to
Cancelled; 2xx whose payload is empty, not an array, or malformed to Empty;
2xx with a non-empty array to Success. -/
def specOutcomeC4 (t : Transport) : Outcome :=
  match t with
  | Transport.abortedFetch => Outcome.cancelled
  | Transport.failed => Outcome.networkError
  | Transport.resp status body =>
    if status = 404 then Outcome.empty
    else if !(200 ≤ status && status ≤ 299) then Outcome.networkError
    else
      match body with
      | JsonBody.parseAbort => Outcome.cancelled
      | JsonBody.parseError => Outcome.empty
      | JsonBody.nonArr => Outcome.empty
      | JsonBody.arr [] => Outcome.empty
      | JsonBody.arr (x :: xs) => Outcome.success (x :: xs)

/-- The outcome mapping amended to what the code does on a 2xx response whose
body fails to parse as JSON: the rejection is caught by the generic handler
and surfaces as NetworkError, not Empty. -/
def specOutcomeC4Amended (t : Transport) : Outcome :=
  match t with
  | Transport.abortedFetch => Outcome.cancelled
  | Transport.failed => Outcome.networkError
  | Transport.resp status body =>
    if status = 404 then Outcome.empty
    else if !(200 ≤ status && status ≤ 299) then Outcome.networkError
    else
      match body with
      | JsonBody.parseAbort => Outcome.cancelled
      | JsonBody.parseError => Outcome.networkError
      | JsonBody.nonArr => Outcome.empty
      | JsonBody.arr [] => Outcome.empty
      | JsonBody.arr (x :: xs) => Outcome.success (x :: xs)

/- ──────────────────────────────────────────────
   CountryRecord mapping — createCountryCard (script.js lines 291-408)
   ────────────────────────────────────────────── -/

/-- JavaScript `(n / 1000000).toFixed(1) + "M"` on an integer population,
as exact rational rounding to one decimal, half away from zero.  (IEEE-754
double rounding can differ on exact .05 ties; no claim depends on a tie.) -/
def fmtM (n : Nat) : String :=
  let tenths := (n * 10 + 500000) / 1000000
  toString (tenths / 10) ++ "." ++ toString (tenths % 10) ++ "M"

/-- JavaScript `(n / 1000).toFixed(0) + "K"`: round to the nearest integer
number of thousands, half away from zero. -/
def fmtK (n : Nat) : String :=
  toString ((n + 500) / 1000) ++ "K"

/-- The population formatting of `createCountryCard` (script.js lines
311-320).  The guard is `if (country.population)`, which is false both when
the field is absent and when it is 0, so population 0 renders as "N/A". -/
def formatPopulation (p : Option Nat) : String :=
  match p with
  | none => "N/A"
  | some n =>
    if n = 0 then "N/A"
    else if n ≥ 1000000 then fmtM n
    else if n ≥ 1000 then fmtK n
    else toString n

/-- The population display rule exactly as claim C8 states it: "N/A" only
when the field is absent; a present value (an integer ≥ 0) below 1000 is
shown as the literal integer. -/
def specPopulationC8 (p : Option Nat) : String :=
  match p with
  | none => "N/A"
  | some n =>
    if n ≥ 1000000 then fmtM n
    else if n ≥ 1000 then fmtK n
    else toString n

/-- Display name: `country.name && country.name.common`, falling back to
"Unknown".  An absent or falsy `name.common` is modelled as `none`. -/
def countryDisplayName (c : RawCountry) : String :=
  c.name.getD "Unknown"

/-- Capital display: first element of the capital array, or "N/A" when the
array is absent or empty. -/
def countryCapital (c : RawCountry) : String :=
  c.capital.headD "N/A"

/-- JavaScript `array.join(", ")`. -/
def joinComma (l : List String) : String :=
  String.intercalate ", " l

/-- The data `createCountryCard` extracts and renders into the card. -/
structure CardData where
  name : String
  flag : String
  region : String
  subregion : String
  population : String
  capital : String
  currencies : String
  languages : String
  coords : Option (Int × Int)
deriving DecidableEq, Repr

/-- Embedding of the data extraction of `createCountryCard` (script.js lines
291-355): name falls back to "Unknown"; flag prefers svg then png then "";
population via `formatPopulation`; capital via `countryCapital`; currencies
joined display names ("N/A" when the mapping is absent); languages joined
display names capped at the first 3 in insertion order ("N/A" when absent);
coordinates present exactly when `latlng` has at least two entries. -/
def createCountryCard (c : RawCountry) : CardData :=
  { name := countryDisplayName c
    flag :=
      match c.flagsSvg with
      | some s => s
      | none => match c.flagsPng with | some p => p | none => ""
    region := c.region.getD "Unknown Region"
    subregion := c.subregion.getD ""
    population := formatPopulation c.population
    capital := countryCapital c
    currencies :=
      match c.currencies with
      | none => "N/A"
      | some l => joinComma l
    languages :=
      match c.languages with
      | none => "N/A"
      | some l => joinComma (l.take 3)
    coords :=
      match c.latlng with
      | some l => if 2 ≤ l.length then some (l.getD 0 0, l.getD 1 0) else none
      | none => none }

/- ──────────────────────────────────────────────
   ResultReconciler — displayResults (script.js lines 448-497)
   ────────────────────────────────────────────── -/

/-- A Leaflet marker as the code builds it: position plus popup content. -/
structure Marker where
  lat : Int
  lng : Int
  popupName : String
  popupCapital : String
deriving DecidableEq, Repr

/-- The map viewport: initial world view (`setView([20, 0], 2)`) or fitted to
a marker group with `fitBounds(group.getBounds().pad(0.3))`, recorded as the
marker list and the padding in percent. -/
inductive Viewport
  | world
  | fitted (ms : List Marker) (padPercent : Nat)
deriving DecidableEq, Repr

/-- The per-surface displayed state: card records, markers, viewport. -/
structure ViewState where
  records : List RawCountry
  markers : List Marker
  viewport : Viewport
deriving DecidableEq, Repr

/-- The marker guard of `displayResults`: `country.latlng &&
country.latlng.length >= 2`. -/
def hasCoords (c : RawCountry) : Bool :=
  match c.latlng with
  | some l => decide (2 ≤ l.length)
  | none => false

/-- The marker `displayResults` builds for a coordinate-bearing record:
`L.marker([latlng[0], latlng[1]])` with a name/capital popup. -/
def mkMarker (c : RawCountry) : Marker :=
  match c.latlng with
  | some l => { lat := l.getD 0 0, lng := l.getD 1 0,
                popupName := countryDisplayName c,
                popupCapital := countryCapital c }
  | none => { lat := 0, lng := 0,
              popupName := countryDisplayName c,
              popupCapital := countryCapital c }

/-- The initial view of a surface. -/
def emptyView : ViewState :=
  { records := [], markers := [], viewport := Viewport.world }

/-- Embedding of `displayResults` (script.js lines 448-497).  If the grid
element is missing the function returns before touching anything.  Otherwise
the cards are replaced wholesale by the new records; the marker array is
cleared and refilled with one marker per coordinate-bearing record, in order,
but only when a map instance exists; `fitBounds` with pad 0.3 runs exactly
when the rebuilt marker array is non-empty and a map instance exists,
otherwise the viewport is left as it was. -/
def displayResults (countries : List RawCountry) (gridPresent mapPresent : Bool)
    (v : ViewState) : ViewState :=
  if !gridPresent then v
  else
    let ms := if mapPresent then (countries.filter hasCoords).map mkMarker else []
    { records := countries
      markers := ms
      viewport := if mapPresent && !ms.isEmpty then Viewport.fitted ms 30 else v.viewport }

/- ──────────────────────────────────────────────
   The two search surfaces as an event machine
   (script.js lines 21-25, 182-246, 506-617)
   ────────────────────────────────────────────── -/

/-- The two search surfaces: the home page search form and the destinations
page search form. -/
inductive Surface
  | home
  | dest
deriving DecidableEq, Repr

/-- The feedback element each surface passes to `searchCountries`. -/
def feedbackIdOf : Surface → String
  | Surface.home => "search-feedback"
  | Surface.dest => "dest-feedback"

/-- One issued search request: the id of the `AbortController` minted for it,
the surface whose submit handler issued it, and the query. -/
structure Request where
  rid : Nat
  surface : Surface
  query : String
deriving DecidableEq, Repr

/-- The mutable state the two submit handlers and `searchCountries` share.
`current` is the single module-level `currentAbortController` (by id);
`aborted` records every controller on which `abort()` was called; `inflight`
holds issued, unresolved requests; the spinners are the two DOM spinner
elements; the views are the per-surface displayed state; `feedback` is the
append-only log of messages shown (element id, message, css type). -/
structure AppState where
  nextId : Nat
  current : Option Nat
  aborted : List Nat
  inflight : List Request
  homeSpinner : Bool
  destSpinner : Bool
  homeView : ViewState
  destView : ViewState
  feedback : List (String × String × String)
deriving DecidableEq, Repr

/-- The page-load state: no controller, nothing in flight, spinners off,
both surfaces showing the initial view. -/
def appInit : AppState :=
  { nextId := 0, current := none, aborted := [], inflight := []
    homeSpinner := false, destSpinner := false
    homeView := emptyView, destView := emptyView, feedback := [] }

/-- Events of the cooperative event loop: a form submit on a surface, or the
network resolving the request with a given controller id.  Each event's
handler runs to completion before the next event (JavaScript microtask
ordering makes the post-await continuation of `searchCountries` and the
submit handler one atomic block). -/
inductive Event
  | submit (s : Surface) (q : String)
  | resolve (rid : Nat) (t : Transport)

/-- What the request with controller id `rid` actually observes at
resolution: if `abort()` was called on its controller before it settled, the
pending `fetch`/`json()` promise rejects with `AbortError` regardless of what
the network did. -/
def effTransport (st : AppState) (rid : Nat) (t : Transport) : Transport :=
  if st.aborted.contains rid then Transport.abortedFetch else t

/-- Read a surface's view. -/
def viewOf (st : AppState) : Surface → ViewState
  | Surface.home => st.homeView
  | Surface.dest => st.destView

/-- Read a surface's spinner. -/
def spinnerOf (st : AppState) : Surface → Bool
  | Surface.home => st.homeSpinner
  | Surface.dest => st.destSpinner

/-- One step of the machine.

`submit s q` embeds the submit handlers (script.js lines 509-521 and
593-605) plus the synchronous prefix of `searchCountries` (lines 185-191):
invalid input shows the validation message and issues nothing; valid input
aborts the current controller (whichever surface minted it — the variable is
a single module-level global), mints a fresh controller which becomes
current, turns the surface's spinner on and issues the request.

`resolve rid t` embeds the rest of `searchCountries` (lines 193-245) and the
handler continuation (lines 547-570 / 608-616): compute the observed
transport (`effTransport`), produce the `SCResult`, turn the surface's
spinner off (the `finally` block), append any feedback message, and when the
returned array is non-empty replace the surface's view via
`displayResults`. -/
def step (st : AppState) : Event → AppState
  | Event.submit s q =>
    let v := validateSearchInput q
    if v.valid then
      { st with
        nextId := st.nextId + 1
        current := some st.nextId
        aborted := match st.current with
          | some c => c :: st.aborted
          | none => st.aborted
        inflight := st.inflight ++ [{ rid := st.nextId, surface := s, query := q }]
        homeSpinner := if s = Surface.home then true else st.homeSpinner
        destSpinner := if s = Surface.dest then true else st.destSpinner }
    else
      { st with feedback := st.feedback ++ [(feedbackIdOf s, v.message, "error")] }
  | Event.resolve rid t =>
    match st.inflight.find? (fun x => x.rid == rid) with
    | none => st
    | some req =>
      let r := searchCountries req.query (effTransport st rid t)
      let fb :=
        match r.feedback with
        | some mt => [(feedbackIdOf req.surface, mt.1, mt.2)]
        | none => []
      let st1 : AppState :=
        { st with
          inflight := st.inflight.filter (fun x => x.rid != rid)
          homeSpinner := if req.surface = Surface.home then false else st.homeSpinner
          destSpinner := if req.surface = Surface.dest then false else st.destSpinner
          feedback := st.feedback ++ fb }
      if r.ret.isEmpty then st1
      else
        match req.surface with
        | Surface.home => { st1 with homeView := displayResults r.ret true true st1.homeView }
        | Surface.dest => { st1 with destView := displayResults r.ret true true st1.destView }

/-- Run a list of events from the page-load state. -/
def runTrace (es : List Event) : AppState :=
  es.foldl step appInit

/-- The outcome a `resolve` event classifies to, if the id is in flight. -/
def resolveOutcome (st : AppState) (rid : Nat) (t : Transport) : Option Outcome :=
  (st.inflight.find? (fun x => x.rid == rid)).map
    (fun req => codeOutcome (searchCountries req.query (effTransport st rid t)))

/-- Token invariant: every in-flight request is either the current controller
or has been aborted. -/
def TokenInv (st : AppState) : Prop :=
  ∀ r ∈ st.inflight, st.current = some r.rid ∨ r.rid ∈ st.aborted

/-- States reachable from page load by events. -/
inductive Reachable : AppState → Prop
  | base : Reachable appInit
  | next (st : AppState) (e : Event) : Reachable st → Reachable (step st e)

/- ──────────────────────────────────────────────
   IndependentFanoutLoader — loadFeaturedDestinations
   (script.js lines 626-667)
   ────────────────────────────────────────────── -/

/-- The fixed featured list (script.js lines 630-637). -/
def featuredCountries : List String :=
  ["Japan", "Italy", "Brazil", "Australia", "Morocco", "Iceland"]

/-- The body of one iteration of `loadFeaturedDestinations`: any thrown error
is caught and silently skipped; a non-ok response is skipped; a 2xx response
whose payload is a non-empty array appends a card built from its first
element; everything else is skipped.  No retry happens: each name is fetched
exactly once, in list order. -/
def featuredFetchCard (t : Transport) : Option CardData :=
  match t with
  | Transport.abortedFetch => none
  | Transport.failed => none
  | Transport.resp status body =>
    if 200 ≤ status && status ≤ 299 then
      match body with
      | JsonBody.arr (x :: _) => some (createCountryCard x)
      | _ => none
    else none

/-- The spec's per-entry `FeaturedLoadState` value, derived from the
observable behaviour: an entry is loaded exactly when its card was appended,
failed otherwise. -/
inductive FeaturedEntry
  | loaded (c : CardData)
  | failedLoad
deriving DecidableEq, Repr

/-- Classify one lookup. -/
def featuredEntry (t : Transport) : FeaturedEntry :=
  match featuredFetchCard t with
  | some c => FeaturedEntry.loaded c
  | none => FeaturedEntry.failedLoad

/-- The cards appended to the featured grid, in list order, given what the
transport did for each index of `featuredCountries`. -/
def featuredAppends (env : Nat → Transport) : List CardData :=
  (List.range featuredCountries.length).filterMap (fun i => featuredFetchCard (env i))

/-- The loader's final per-name state. -/
def featuredState (env : Nat → Transport) : List (String × FeaturedEntry) :=
  (List.range featuredCountries.length).map
    (fun i => (featuredCountries.getD i "", featuredEntry (env i)))

/-- Count loaded entries. -/
def loadedCount (l : List (String × FeaturedEntry)) : Nat :=
  l.countP (fun p => match p.2 with | FeaturedEntry.loaded _ => true | _ => false)

/-- Count failed entries. -/
def failedCount (l : List (String × FeaturedEntry)) : Nat :=
  l.countP (fun p => match p.2 with | FeaturedEntry.failedLoad => true | _ => false)

/-- A featured lookup fails exactly on the cases claim C9 lists: a thrown
transport error, a non-2xx response, or a 2xx response without a non-empty
array payload (empty result). -/
def featuredFailure (t : Transport) : Bool :=
  match t with
  | Transport.abortedFetch => true
  | Transport.failed => true
  | Transport.resp status body =>
    if 200 ≤ status && status ≤ 299 then
      match body with
      | JsonBody.arr (_ :: _) => false
      | _ => true
    else true

/- ──────────────────────────────────────────────
   Favourites — features.js lines 245-301
   ────────────────────────────────────────────── -/

/-- The persisted favourites store under the key "wanderlust-favourites":
absent (`getItem` returns null, `JSON.parse(null)` is null, so `|| []` gives
the empty list), unreadable (the stored text fails to parse, the catch
returns `[]`; falsy parses such as "null" or "false" land in the same
observable bucket via `|| []`), or a stored JSON array of names.  A stored
JSON value that parses to a truthy non-array is outside this model: the code
would return it from `getFavourites` and then crash on `indexOf`. -/
inductive Stored
  | absent
  | unreadable
  | val (l : List String)
deriving DecidableEq, Repr

/-- Embedding of `getFavourites` (features.js lines 245-252). -/
def getFavourites : Stored → List String
  | Stored.absent => []
  | Stored.unreadable => []
  | Stored.val l => l

/-- Embedding of `saveFavourites` (features.js lines 258-264); the quota
error path (catch leaves the store unchanged) is not modelled. -/
def saveFavourites (l : List String) : Stored :=
  Stored.val l

/-- Embedding of `isFavourite` (features.js lines 271-273):
`indexOf(name) !== -1`. -/
def isFavourite (n : String) (s : Stored) : Bool :=
  (getFavourites s).contains n

/-- Embedding of `toggleFavourite` (features.js lines 280-301): if the name
occurs, `splice` removes the first occurrence (`indexOf`); otherwise `push`
appends it at the end; the result is saved. -/
def toggleFavourite (n : String) (s : Stored) : Stored :=
  let favs := getFavourites s
  if favs.contains n then
    saveFavourites (favs.erase n)
  else
    saveFavourites (favs ++ [n])

/- ──────────────────────────────────────────────
   Spec-side character class for claim C3
   ────────────────────────────────────────────── -/

/-- Modelled from the spec: "Unicode letters (including Latin-1 supplement
accented letters)".  Full Unicode category tables are not available here;
this predicate records General_Category=Letter for the code points this
development evaluates: ASCII letters; the Latin-1 Supplement letters, which
are U+00C0 through U+00FF minus the two symbols U+00D7 (multiplication sign)
and U+00F7 (division sign), plus U+00AA, U+00B5 and U+00BA; and the Latin
Extended-A letters U+0100 through U+017F. -/
def specIsUnicodeLetterC3 (c : Char) : Bool :=
  let n := c.toNat
  (0x41 ≤ n && n ≤ 0x5A) || (0x61 ≤ n && n ≤ 0x7A) ||
  n = 0xAA || n = 0xB5 || n = 0xBA ||
  (0xC0 ≤ n && n ≤ 0xFF && n ≠ 0xD7 && n ≠ 0xF7) ||
  (0x100 ≤ n && n ≤ 0x17F)

/-- The allowed character class exactly as claim C3 states it: Unicode
letters, whitespace, hyphen, apostrophe. -/
def specAllowedCharC3 (c : Char) : Bool :=
  specIsUnicodeLetterC3 c || jsWhitespace c || c.toNat = 0x2D || c.toNat = 0x27

/-- The validity condition exactly as claim C3 states it: trimmed length in
[2,100] and only characters of `specAllowedCharC3`. -/
def specValidC3 (s : String) : Bool :=
  let t := jsTrim s
  decide (2 ≤ utf16Len t) && decide (utf16Len t ≤ 100) && t.toList.all specAllowedCharC3

/- ──────────────────────────────────────────────
   Sample data used by witnesses and counterexamples
   ────────────────────────────────────────────── -/

/-- A representative country payload (Japan). -/
def sampleJapan : RawCountry :=
  { name := some "Japan", flagsSvg := some "japan.svg", flagsPng := none
    region := some "Asia", subregion := some "Eastern Asia"
    population := some 125700000, capital := ["Tokyo"]
    currencies := some ["Japanese yen"], languages := some ["Japanese"]
    latlng := some [36, 138] }

/-- A payload with a present population of 0 (such territories exist in the
REST Countries data set, e.g. Bouvet Island). -/
def samplePopZero : RawCountry :=
  { name := some "Bouvet Island", flagsSvg := none, flagsPng := none
    region := some "Antarctic", subregion := none
    population := some 0, capital := []
    currencies := none, languages := none
    latlng := some [-54, 3] }

/-- A payload without coordinates. -/
def sampleNoCoords : RawCountry :=
  { name := some "Nowhere", flagsSvg := none, flagsPng := none
    region := none, subregion := none
    population := some 500, capital := []
    currencies := none, languages := none
    latlng := none }

/-- The string of two LATIN CAPITAL LETTER A WITH MACRON (U+0100): two
Unicode letters outside the code's regex class. -/
def macronAA : String :=
  String.mk [Char.ofNat 0x100, Char.ofNat 0x100]

/-- The string "a" followed by MULTIPLICATION SIGN (U+00D7): two characters
inside the code's regex class though the second is not a letter. -/
def aTimes : String :=
  String.mk [Char.ofNat 0x61, Char.ofNat 0xD7]

/-- A concrete transport environment for the featured loader in which the
lookups at indices 1 and 4 (names #2 and #5) fail and the rest load. -/
def witnessEnvC9 : Nat → Transport
  | 0 => Transport.resp 200 (JsonBody.arr [sampleJapan])
  | 1 => Transport.failed
  | 2 => Transport.resp 200 (JsonBody.arr [samplePopZero])
  | 3 => Transport.resp 200 (JsonBody.arr [sampleNoCoords])
  | 4 => Transport.resp 404 (JsonBody.arr [])
  | _ => Transport.resp 200 (JsonBody.arr [sampleJapan])

/- ──────────────────────────────────────────────
   Helper lemmas
   ────────────────────────────────────────────── -/

/-- Every code point contributes at least one UTF-16 unit. -/
theorem charUnits_pos (c : Char) : 0 < charUnits c := by
  unfold charUnits
  split <;> omega

/-- A string of UTF-16 length zero is empty. -/
theorem eq_empty_of_utf16Len_eq_zero (s : String) (h : utf16Len s = 0) : s = "" := by
  unfold utf16Len at h
  cases s with
  | mk data =>
    cases data with
    | nil => rfl
    | cons c cs =>
      exfalso
      have hc : 0 < charUnits c := charUnits_pos c
      simp [String.toList] at h
      omega

/-- Trimming the empty string gives the empty string. -/
theorem jsTrim_empty : jsTrim "" = "" := rfl

/-- The `resolve` branch of `step` never touches the token bookkeeping, and
only removes from `inflight`. -/
theorem step_resolve_skeleton (st : AppState) (rid : Nat) (t : Transport) :
    (step st (Event.resolve rid t)).current = st.current ∧
    (step st (Event.resolve rid t)).aborted = st.aborted ∧
    ∀ r ∈ (step st (Event.resolve rid t)).inflight, r ∈ st.inflight := by
  cases hf : st.inflight.find? (fun x => x.rid == rid) with
  | none => simp [step, hf]
  | some req =>
    simp only [step, hf]
    split
    · exact ⟨rfl, rfl, fun r hr => List.mem_of_mem_filter hr⟩
    · split <;> exact ⟨rfl, rfl, fun r hr => List.mem_of_mem_filter hr⟩

/-- `step` preserves the token invariant. -/
theorem tokenInv_step (st : AppState) (e : Event) (h : TokenInv st) :
    TokenInv (step st e) := by
  cases e with
  | submit s q =>
    by_cases hv : (validateSearchInput q).valid = true
    · intro r hr
      simp only [step, hv, if_true] at hr ⊢
      rcases List.mem_append.mp hr with hold | hnew
      · rcases h r hold with hcur | hab
        · right
          cases hc : st.current with
          | none => rw [hc] at hcur; cases hcur
          | some c =>
            rw [hc] at hcur
            have hcr : c = r.rid := by injection hcur
            subst hcr
            exact List.mem_cons_self _ _
        · right
          cases hc : st.current with
          | none => exact hab
          | some c => exact List.mem_cons_of_mem _ hab
      · left
        have hre : r = { rid := st.nextId, surface := s, query := q } := by
          simpa using hnew
        rw [hre]
    · intro r hr
      simp only [step, hv] at hr ⊢
      simp only [Bool.not_eq_true] at hv
      simp [hv] at hr ⊢
      exact h r hr
  | resolve rid t =>
    intro r hr
    obtain ⟨hc, ha, hm⟩ := step_resolve_skeleton st rid t
    rw [hc, ha]
    exact h r (hm r hr)

/-- Every reachable state satisfies the token invariant. -/
theorem tokenInv_reachable (st : AppState) (h : Reachable st) : TokenInv st := by
  induction h with
  | base => intro r hr; cases hr
  | next st e _ ih => exact tokenInv_step st e ih

/- ──────────────────────────────────────────────
   Claim theorems
   ────────────────────────────────────────────── -/

/-- C1: on any reachable state, resolving a request that has been superseded
(it is in flight but its controller is no longer the current one) classifies
as Cancelled, shows no message, and leaves both surfaces' displayed
ViewStates untouched; moreover a resolve can mutate a ViewState only when
the resolved request's controller is still current. -/
theorem C1_superseded_resolve_noop (st : AppState) (rid : Nat) (t : Transport)
    (hreach : Reachable st) :
    (rid ∈ st.inflight.map Request.rid → st.current ≠ some rid →
      resolveOutcome st rid t = some Outcome.cancelled ∧
      (step st (Event.resolve rid t)).homeView = st.homeView ∧
      (step st (Event.resolve rid t)).destView = st.destView ∧
      (step st (Event.resolve rid t)).feedback = st.feedback) ∧
    (((step st (Event.resolve rid t)).homeView = st.homeView ∧
      (step st (Event.resolve rid t)).destView = st.destView) ∨
      st.current = some rid) := by
  have hinv := tokenInv_reachable st hreach
  constructor
  · intro hin hcur
    obtain ⟨req, hmem, hrid⟩ := List.mem_map.mp hin
    cases hf : st.inflight.find? (fun x => x.rid == rid) with
    | none =>
      have hne := List.find?_eq_none.mp hf req hmem
      exact absurd (by simp [hrid]) hne
    | some req2 =>
      have hp : req2.rid = rid := by simpa using List.find?_some hf
      have hmem2 := List.mem_of_find?_eq_some hf
      have hab : rid ∈ st.aborted := by
        rcases hinv req2 hmem2 with hcur2 | hab2
        · exact absurd (hp ▸ hcur2) hcur
        · exact hp ▸ hab2
      have heff : effTransport st rid t = Transport.abortedFetch := by
        unfold effTransport
        rw [if_pos (by simpa using hab)]
      refine ⟨?_, ?_⟩
      · simp [resolveOutcome, hf, heff, searchCountries, codeOutcome]
      · simp [step, hf, heff, searchCountries]
  · cases hf : st.inflight.find? (fun x => x.rid == rid) with
    | none => left; simp [step, hf]
    | some req2 =>
      by_cases hab : st.aborted.contains rid = true
      · left
        have heff : effTransport st rid t = Transport.abortedFetch := by
          unfold effTransport
          rw [if_pos hab]
        simp [step, hf, heff, searchCountries]
      · right
        have hp : req2.rid = rid := by simpa using List.find?_some hf
        have hmem2 := List.mem_of_find?_eq_some hf
        rcases hinv req2 hmem2 with hcur2 | hab2
        · exact hp ▸ hcur2
        · exact absurd (by simpa using hp ▸ hab2) hab

/-- Witness for C1: home search for France (token 0) superseded by a home
search for Spain (token 1); resolving token 0 afterwards — even with a
successful transport — is Cancelled, silent, and view-preserving. -/
theorem C1_superseded_resolve_noop_witness :
    resolveOutcome
      (step (step appInit (Event.submit Surface.home "France"))
        (Event.submit Surface.home "Spain")) 0
      (Transport.resp 200 (JsonBody.arr [sampleJapan])) = some Outcome.cancelled ∧
    (step (step (step appInit (Event.submit Surface.home "France"))
        (Event.submit Surface.home "Spain"))
      (Event.resolve 0 (Transport.resp 200 (JsonBody.arr [sampleJapan])))).homeView =
      (step (step appInit (Event.submit Surface.home "France"))
        (Event.submit Surface.home "Spain")).homeView ∧
    (step (step (step appInit (Event.submit Surface.home "France"))
        (Event.submit Surface.home "Spain"))
      (Event.resolve 0 (Transport.resp 200 (JsonBody.arr [sampleJapan])))).destView =
      (step (step appInit (Event.submit Surface.home "France"))
        (Event.submit Surface.home "Spain")).destView ∧
    (step (step (step appInit (Event.submit Surface.home "France"))
        (Event.submit Surface.home "Spain"))
      (Event.resolve 0 (Transport.resp 200 (JsonBody.arr [sampleJapan])))).feedback =
      (step (step appInit (Event.submit Surface.home "France"))
        (Event.submit Surface.home "Spain")).feedback :=
  (C1_superseded_resolve_noop
    (step (step appInit (Event.submit Surface.home "France"))
      (Event.submit Surface.home "Spain")) 0
    (Transport.resp 200 (JsonBody.arr [sampleJapan]))
    (Reachable.next _ _ (Reachable.next _ _ Reachable.base))).1
      (by decide) (by decide)

/-- C2 counterexample: a home search (token 0) is in flight; issuing a
search on the destinations surface aborts home's controller, so resolving
token 0 — which without the cross-surface submit would have been a Success —
is Cancelled.  The surfaces do not have independent current tokens. -/
theorem C2_counterexample :
    ({ rid := 0, surface := Surface.home, query := "France" } : Request) ∈
      (step appInit (Event.submit Surface.home "France")).inflight ∧
    (step appInit (Event.submit Surface.home "France")).aborted = [] ∧
    resolveOutcome (step appInit (Event.submit Surface.home "France")) 0
      (Transport.resp 200 (JsonBody.arr [sampleJapan])) =
      some (Outcome.success [sampleJapan]) ∧
    ({ rid := 0, surface := Surface.home, query := "France" } : Request) ∈
      (step (step appInit (Event.submit Surface.home "France"))
        (Event.submit Surface.dest "Spain")).inflight ∧
    (0 : Nat) ∈ (step (step appInit (Event.submit Surface.home "France"))
        (Event.submit Surface.dest "Spain")).aborted ∧
    resolveOutcome (step (step appInit (Event.submit Surface.home "France"))
        (Event.submit Surface.dest "Spain")) 0
      (Transport.resp 200 (JsonBody.arr [sampleJapan])) =
      some Outcome.cancelled := by
  decide

/-- C2 amended: the two surfaces share the single module-level
`currentAbortController`; any valid submit on either surface mints the next
controller as current and aborts whichever controller was current before,
regardless of which surface issued it. -/
theorem C2_shared_token (st : AppState) (s : Surface) (q : String)
    (hv : (validateSearchInput q).valid = true) :
    (step st (Event.submit s q)).current = some st.nextId ∧
    (∀ c, st.current = some c → c ∈ (step st (Event.submit s q)).aborted) ∧
    ({ rid := st.nextId, surface := s, query := q } : Request) ∈
      (step st (Event.submit s q)).inflight := by
  refine ⟨?_, ?_, ?_⟩
  · simp [step, hv]
  · intro c hc
    simp [step, hv, hc]
  · simp [step, hv]

/-- Witness for C2 amended: the dest submit takes over the token minted by
the home submit and aborts it. -/
theorem C2_shared_token_witness :
    (step (step appInit (Event.submit Surface.home "France"))
      (Event.submit Surface.dest "Spain")).current = some 1 ∧
    (0 : Nat) ∈ (step (step appInit (Event.submit Surface.home "France"))
      (Event.submit Surface.dest "Spain")).aborted ∧
    ({ rid := 1, surface := Surface.dest, query := "Spain" } : Request) ∈
      (step (step appInit (Event.submit Surface.home "France"))
        (Event.submit Surface.dest "Spain")).inflight :=
  ⟨(C2_shared_token (step appInit (Event.submit Surface.home "France"))
      Surface.dest "Spain" (by decide)).1,
   (C2_shared_token (step appInit (Event.submit Surface.home "France"))
      Surface.dest "Spain" (by decide)).2.1 0 (by decide),
   (C2_shared_token (step appInit (Event.submit Surface.home "France"))
      Surface.dest "Spain" (by decide)).2.2⟩

/-- C3 counterexample: the string of two U+0100 letters is made of Unicode
letters with trimmed length 2, so the claim demands Valid, but the code's
regex class stops at U+00FF and rejects it; conversely "a" followed by the
multiplication sign U+00D7 contains a non-letter, so the claim demands
Invalid, but the code's class accepts every code point in U+00C0..U+00FF. -/
theorem C3_counterexample :
    specValidC3 macronAA = true ∧
    (validateSearchInput macronAA).valid = false ∧
    specValidC3 aTimes = false ∧
    (validateSearchInput aTimes).valid = true := by
  decide

/-- C3 amended: `validateSearchInput` is pure and accepts exactly the
strings whose trimmed UTF-16 length is in [2,100] and whose characters all
lie in the regex class `[a-zA-ZÀ-ÿ\s\-']` (ASCII letters plus the code
points U+00C0..U+00FF, whitespace, hyphen, apostrophe — not all Unicode
letters); the documented reasons are produced in the order empty,
too-short, too-long, bad-chars, first failure wins; and an invalid input
never issues a network request. -/
theorem C3_validator_amended (s : String) :
    ((validateSearchInput s).valid = true ↔ codeValidPred s = true) ∧
    (jsTrim s = "" →
      (validateSearchInput s).message = "Please enter a country name to search.") ∧
    (jsTrim s ≠ "" → utf16Len (jsTrim s) < 2 →
      (validateSearchInput s).message = "Search must be at least 2 characters long.") ∧
    (utf16Len (jsTrim s) > 100 →
      (validateSearchInput s).message = "Search term is too long. Please shorten it.") ∧
    (2 ≤ utf16Len (jsTrim s) → utf16Len (jsTrim s) ≤ 100 →
      (jsTrim s).toList.all allowedSearchChar = false →
      (validateSearchInput s).message = "Please enter a valid country name (letters only).") ∧
    (∀ (st : AppState) (surf : Surface), (validateSearchInput s).valid = false →
      (step st (Event.submit surf s)).inflight = st.inflight ∧
      (step st (Event.submit surf s)).current = st.current ∧
      (step st (Event.submit surf s)).nextId = st.nextId) := by
  have hnoreq : ∀ (st : AppState) (surf : Surface),
      (validateSearchInput s).valid = false →
      (step st (Event.submit surf s)).inflight = st.inflight ∧
      (step st (Event.submit surf s)).current = st.current ∧
      (step st (Event.submit surf s)).nextId = st.nextId := by
    intro st surf hvf
    simp [step, hvf]
  by_cases h0 : jsTrim s = ""
  · have hval : validateSearchInput s =
        { valid := false, message := "Please enter a country name to search." } := by
      unfold validateSearchInput
      rw [if_pos]
      simp [h0]
    refine ⟨?_, ?_, ?_, ?_, ?_, hnoreq⟩
    · rw [hval]
      unfold codeValidPred
      rw [h0]
      simp [utf16Len]
    · intro _; rw [hval]
    · intro hne _; exact absurd h0 hne
    · intro hgt; rw [h0] at hgt; simp [utf16Len] at hgt
    · intro hge _ _; rw [h0] at hge; simp [utf16Len] at hge
  · have hs : s ≠ "" := fun he => h0 (by rw [he]; exact jsTrim_empty)
    have hcond : (s = "" || jsTrim s = "") = false := by
      simp [hs, h0]
    by_cases h1 : utf16Len (jsTrim s) < 2
    · have hval : validateSearchInput s =
          { valid := false, message := "Search must be at least 2 characters long." } := by
        unfold validateSearchInput
        rw [hcond]
        simp only [Bool.false_eq_true, if_false]
        rw [if_pos h1]
      refine ⟨?_, ?_, ?_, ?_, ?_, hnoreq⟩
      · rw [hval]
        simp only [codeValidPred, Bool.and_eq_true, decide_eq_true_eq]
        constructor
        · intro h; cases h
        · intro h; exact absurd h.1.1 (by omega)
      · intro he; exact absurd he h0
      · intro _ _; rw [hval]
      · intro hgt; omega
      · intro hge _ _; omega
    · by_cases h2 : utf16Len (jsTrim s) > 100
      · have hval : validateSearchInput s =
            { valid := false, message := "Search term is too long. Please shorten it." } := by
          unfold validateSearchInput
          rw [hcond]
          simp only [Bool.false_eq_true, if_false]
          rw [if_neg h1, if_pos h2]
        refine ⟨?_, ?_, ?_, ?_, ?_, hnoreq⟩
        · rw [hval]
          simp only [codeValidPred, Bool.and_eq_true, decide_eq_true_eq]
          constructor
          · intro h; cases h
          · intro h; exact absurd h.1.2 (by omega)
        · intro he; exact absurd he h0
        · intro _ hlt; exact absurd hlt h1
        · intro _; rw [hval]
        · intro _ hle _; omega
      · by_cases h3 : (jsTrim s).toList.all allowedSearchChar = true
        · have hval : validateSearchInput s = { valid := true, message := "" } := by
            unfold validateSearchInput
            rw [hcond]
            simp only [Bool.false_eq_true, if_false]
            rw [if_neg h1, if_neg h2, if_neg (by rw [h3]; simp)]
          refine ⟨?_, ?_, ?_, ?_, ?_, hnoreq⟩
          · rw [hval]
            simp only [codeValidPred, Bool.and_eq_true, decide_eq_true_eq]
            exact ⟨fun _ => ⟨⟨by omega, by omega⟩, h3⟩, fun _ => by trivial⟩
          · intro he; exact absurd he h0
          · intro _ hlt; exact absurd hlt h1
          · intro hgt; exact absurd hgt h2
          · intro _ _ hall; rw [h3] at hall; cases hall
        · have hval : validateSearchInput s =
              { valid := false,
                message := "Please enter a valid country name (letters only)." } := by
            unfold validateSearchInput
            rw [hcond]
            simp only [Bool.false_eq_true, if_false]
            rw [if_neg h1, if_neg h2, if_pos (by simp [Bool.not_eq_true] at h3 ⊢; exact h3)]
          refine ⟨?_, ?_, ?_, ?_, ?_, hnoreq⟩
          · rw [hval]
            simp only [codeValidPred, Bool.and_eq_true, decide_eq_true_eq]
            constructor
            · intro h; cases h
            · intro h; exact absurd h.2 h3
          · intro he; exact absurd he h0
          · intro _ hlt; exact absurd hlt h1
          · intro hgt; exact absurd hgt h2
          · intro _ _ _; rw [hval]

/-- Witness for C3 amended: the query "a" is Invalid with the too-short
message and issues no request (the spec's own scenario). -/
theorem C3_validator_amended_witness :
    ((validateSearchInput "a").valid = true ↔ codeValidPred "a" = true) ∧
    (validateSearchInput "a").message = "Search must be at least 2 characters long." ∧
    (step appInit (Event.submit Surface.home "a")).inflight = appInit.inflight ∧
    (step appInit (Event.submit Surface.home "a")).current = appInit.current ∧
    (step appInit (Event.submit Surface.home "a")).nextId = appInit.nextId :=
  ⟨(C3_validator_amended "a").1,
   (C3_validator_amended "a").2.2.1 (by decide) (by decide),
   ((C3_validator_amended "a").2.2.2.2.2 appInit Surface.home (by decide)).1,
   ((C3_validator_amended "a").2.2.2.2.2 appInit Surface.home (by decide)).2.1,
   ((C3_validator_amended "a").2.2.2.2.2 appInit Surface.home (by decide)).2.2⟩

/-- C4 counterexample: a 2xx response whose body fails to parse as JSON is
classified by the code as NetworkError (the rejection lands in the generic
catch, which shows the connection-error message), while the claim's mapping
sends every malformed 2xx payload to Empty. -/
theorem C4_counterexample :
    codeOutcome (searchCountries "France" (Transport.resp 200 JsonBody.parseError)) =
      Outcome.networkError ∧
    specOutcomeC4 (Transport.resp 200 JsonBody.parseError) = Outcome.empty ∧
    codeOutcome (searchCountries "France" (Transport.resp 200 JsonBody.parseError)) ≠
      specOutcomeC4 (Transport.resp 200 JsonBody.parseError) := by
  decide

/-- C4 amended: the outcome mapping holds with one change — a 2xx response
whose body fails to parse yields NetworkError; 404 yields Empty, other
non-2xx statuses and transport failures yield NetworkError, an observed
cancellation yields Cancelled, a 2xx payload that is empty or not an array
yields Empty, and a 2xx non-empty array yields Success with one record per
element. -/
theorem C4_outcome_amended (q : String) (t : Transport) :
    codeOutcome (searchCountries q t) = specOutcomeC4Amended t := by
  cases t with
  | abortedFetch => rfl
  | failed => rfl
  | resp status body =>
    by_cases hok : (200 ≤ status && status ≤ 299) = true
    · have h404 : status ≠ 404 := by
        intro h
        rw [h] at hok
        simp at hok
      simp only [searchCountries, specOutcomeC4Amended, hok, Bool.not_true,
        Bool.false_eq_true, if_false]
      rw [if_neg h404]
      cases body with
      | arr xs => cases xs <;> rfl
      | nonArr => rfl
      | parseError => rfl
      | parseAbort => rfl
    · have hok2 : (200 ≤ status && status ≤ 299) = false := by
        simpa using hok
      simp only [searchCountries, specOutcomeC4Amended, hok2, Bool.not_false, if_true]
      by_cases h404 : status = 404
      · rw [if_pos h404, if_pos h404]
        rfl
      · rw [if_neg h404, if_neg h404]
        rfl

/-- C5: a resolve whose outcome is not Success leaves both surfaces'
displayed ViewStates exactly as they were before the call. -/
theorem C5_non_success_preserves_view (st : AppState) (rid : Nat) (t : Transport)
    (req : Request)
    (hf : st.inflight.find? (fun x => x.rid == rid) = some req)
    (hns : isSuccessOutcome
      (codeOutcome (searchCountries req.query (effTransport st rid t))) = false) :
    (step st (Event.resolve rid t)).homeView = st.homeView ∧
    (step st (Event.resolve rid t)).destView = st.destView := by
  have hret : (searchCountries req.query (effTransport st rid t)).ret = [] := by
    cases hr : (searchCountries req.query (effTransport st rid t)).ret with
    | nil => rfl
    | cons x xs =>
      exfalso
      unfold codeOutcome at hns
      rw [hr] at hns
      simp [isSuccessOutcome] at hns
  simp only [step, hf]
  rw [if_pos (by rw [hret]; rfl)]
  exact ⟨rfl, rfl⟩

/-- Witness for C5: a home search whose transport returns 404 (Empty): the
home and dest views are untouched. -/
theorem C5_non_success_preserves_view_witness :
    (step (step appInit (Event.submit Surface.home "France"))
      (Event.resolve 0 (Transport.resp 404 JsonBody.nonArr))).homeView =
      (step appInit (Event.submit Surface.home "France")).homeView ∧
    (step (step appInit (Event.submit Surface.home "France"))
      (Event.resolve 0 (Transport.resp 404 JsonBody.nonArr))).destView =
      (step appInit (Event.submit Surface.home "France")).destView :=
  C5_non_success_preserves_view (step appInit (Event.submit Surface.home "France"))
    0 (Transport.resp 404 JsonBody.nonArr)
    { rid := 0, surface := Surface.home, query := "France" }
    (by decide) (by decide)

/-- C6: with the grid and map present, committing a Success outcome replaces
the record sequence wholesale, rebuilds the marker set with exactly one
marker per coordinate-bearing record (K of N), fits the viewport around all
K markers with the fixed 30% padding when K ≥ 1, and leaves the viewport
unchanged when K = 0. -/
theorem C6_markers_viewport (countries : List RawCountry) (v : ViewState) :
    (displayResults countries true true v).records = countries ∧
    (displayResults countries true true v).markers =
      (countries.filter hasCoords).map mkMarker ∧
    (displayResults countries true true v).markers.length =
      countries.countP hasCoords ∧
    (0 < countries.countP hasCoords →
      (displayResults countries true true v).viewport =
        Viewport.fitted ((countries.filter hasCoords).map mkMarker) 30) ∧
    (countries.countP hasCoords = 0 →
      (displayResults countries true true v).viewport = v.viewport) := by
  have hdr : displayResults countries true true v =
      { records := countries
        markers := (countries.filter hasCoords).map mkMarker
        viewport := if !((countries.filter hasCoords).map mkMarker).isEmpty
          then Viewport.fitted ((countries.filter hasCoords).map mkMarker) 30
          else v.viewport } := rfl
  rw [hdr]
  refine ⟨rfl, rfl, ?_, ?_, ?_⟩
  · rw [List.length_map, List.countP_eq_length_filter]
  · intro hpos
    cases hfc : countries.filter hasCoords with
    | nil =>
      rw [List.countP_eq_length_filter, hfc] at hpos
      simp at hpos
    | cons a l => rfl
  · intro hz
    rw [List.countP_eq_length_filter] at hz
    rw [List.length_eq_zero.mp hz]
    rfl

/-- Witness for C6: two records, one with coordinates: the records are
replaced, exactly one marker exists, and the viewport is fitted to it with
30% padding. -/
theorem C6_markers_viewport_witness :
    (displayResults [sampleJapan, sampleNoCoords] true true emptyView).records =
      [sampleJapan, sampleNoCoords] ∧
    (displayResults [sampleJapan, sampleNoCoords] true true emptyView).markers.length =
      [sampleJapan, sampleNoCoords].countP hasCoords ∧
    (displayResults [sampleJapan, sampleNoCoords] true true emptyView).viewport =
      Viewport.fitted (([sampleJapan, sampleNoCoords].filter hasCoords).map mkMarker) 30 :=
  ⟨(C6_markers_viewport [sampleJapan, sampleNoCoords] emptyView).1,
   (C6_markers_viewport [sampleJapan, sampleNoCoords] emptyView).2.2.1,
   (C6_markers_viewport [sampleJapan, sampleNoCoords] emptyView).2.2.2.1 (by decide)⟩

/-- C7 amended: the surface's spinner is turned on by every valid submit
(before the request is issued) and turned off by every resolve of a request
on that surface, whatever the termination path; but because the spinner is a
single shared DOM element per surface, a superseded request's `finally`
turns it off even while the fresh request is still in flight — the last
state change is the stale request's off, not the fresh request's on. -/
theorem C7_spinner_amended :
    (∀ (st : AppState) (s : Surface) (q : String),
      (validateSearchInput q).valid = true →
      spinnerOf (step st (Event.submit s q)) s = true ∧
      ({ rid := st.nextId, surface := s, query := q } : Request) ∈
        (step st (Event.submit s q)).inflight) ∧
    (∀ (st : AppState) (rid : Nat) (t : Transport) (req : Request),
      st.inflight.find? (fun x => x.rid == rid) = some req →
      spinnerOf (step st (Event.resolve rid t)) req.surface = false) := by
  constructor
  · intro st s q hv
    constructor
    · cases s <;> simp [step, hv, spinnerOf]
    · simp [step, hv]
  · intro st rid t req hf
    obtain ⟨rrid, rsurf, rq⟩ := req
    cases rsurf <;> simp [step, hf, spinnerOf] <;> split <;> simp [spinnerOf]

/-- Witness for C7 amended: a home submit turns the home spinner on; its
resolve turns it off. -/
theorem C7_spinner_amended_witness :
    spinnerOf (step appInit (Event.submit Surface.home "France")) Surface.home = true ∧
    spinnerOf (step (step appInit (Event.submit Surface.home "France"))
      (Event.resolve 0 Transport.failed)) Surface.home = false :=
  ⟨(C7_spinner_amended.1 appInit Surface.home "France" (by decide)).1,
   C7_spinner_amended.2 (step appInit (Event.submit Surface.home "France"))
     0 Transport.failed
     { rid := 0, surface := Surface.home, query := "France" } (by decide)⟩

/-- C7 counterexample: home search France (token 0), then home search Spain
(token 1, fresh, in flight), then token 0's resolve runs its `finally`: the
home spinner is off although the fresh request 1 is still in flight — the
fresh request's on did not win. -/
theorem C7_counterexample :
    ({ rid := 1, surface := Surface.home, query := "Spain" } : Request) ∈
      (step (step (step appInit (Event.submit Surface.home "France"))
        (Event.submit Surface.home "Spain"))
        (Event.resolve 0 Transport.failed)).inflight ∧
    (step (step (step appInit (Event.submit Surface.home "France"))
      (Event.submit Surface.home "Spain"))
      (Event.resolve 0 Transport.failed)).homeSpinner = false := by
  decide

/-- C8 counterexample: a record with a present population of 0 renders as
"N/A" (the JavaScript truthiness guard `if (country.population)` treats 0 as
absent), while the claim requires the literal integer "0" for every present
population with no suffix threshold reached. -/
theorem C8_counterexample :
    samplePopZero.population = some 0 ∧
    (createCountryCard samplePopZero).population = "N/A" ∧
    specPopulationC8 samplePopZero.population = "0" ∧
    (createCountryCard samplePopZero).population ≠
      specPopulationC8 samplePopZero.population := by
  decide

/-- C8 amended: the card mapping is as claimed except that a present
population of 0 also renders "N/A": population uses the M/K suffix
thresholds at one decimal / whole thousands, capital is the first capital
entry or "N/A", languages are the comma-joined first 3 display names in
insertion order, name falls back to "Unknown", and coordinates are present
exactly when latlng carries both latitude and longitude. -/
theorem C8_card_amended (c : RawCountry) :
    ((createCountryCard c).population =
      match c.population with
      | none => "N/A"
      | some n =>
        if n = 0 then "N/A"
        else if 1000000 ≤ n then fmtM n
        else if 1000 ≤ n then fmtK n
        else toString n) ∧
    ((createCountryCard c).capital =
      match c.capital with
      | [] => "N/A"
      | x :: _ => x) ∧
    ((createCountryCard c).languages =
      match c.languages with
      | none => "N/A"
      | some l => joinComma (l.take 3)) ∧
    ((createCountryCard c).name =
      match c.name with
      | none => "Unknown"
      | some n => n) ∧
    ((createCountryCard c).coords.isSome = true ↔
      ∃ l, c.latlng = some l ∧ 2 ≤ l.length) := by
  refine ⟨?_, ?_, ?_, ?_, ?_⟩
  · cases hp : c.population with
    | none => simp [createCountryCard, formatPopulation, hp]
    | some n => simp [createCountryCard, formatPopulation, hp]
  · cases hc : c.capital with
    | nil => simp [createCountryCard, countryCapital, hc]
    | cons x l => simp [createCountryCard, countryCapital, hc]
  · cases hl : c.languages with
    | none => simp [createCountryCard, hl]
    | some l => simp [createCountryCard, hl]
  · cases hn : c.name with
    | none => simp [createCountryCard, countryDisplayName, hn]
    | some n => simp [createCountryCard, countryDisplayName, hn]
  · cases hl : c.latlng with
    | none => simp [createCountryCard, hl]
    | some l =>
      by_cases h2 : 2 ≤ l.length
      · simp only [createCountryCard, hl, if_pos h2, Option.isSome_some]
        exact ⟨fun _ => ⟨l, rfl, h2⟩, fun _ => by trivial⟩
      · simp only [createCountryCard, hl, if_neg h2, Option.isSome_none]
        constructor
        · intro h; cases h
        · rintro ⟨l2, hl2, h22⟩
          injection hl2 with he
          exact absurd (he ▸ h22) h2

/-- Witness for C8 amended: Japan's card shows population "125.7M", capital
"Tokyo", language "Japanese", name "Japan", and has coordinates. -/
theorem C8_card_amended_witness :
    (createCountryCard sampleJapan).population = "125.7M" ∧
    (createCountryCard sampleJapan).capital = "Tokyo" ∧
    (createCountryCard sampleJapan).languages = "Japanese" ∧
    (createCountryCard sampleJapan).name = "Japan" ∧
    (createCountryCard sampleJapan).coords.isSome = true :=
  ⟨(C8_card_amended sampleJapan).1.trans (by decide),
   (C8_card_amended sampleJapan).2.1.trans (by decide),
   (C8_card_amended sampleJapan).2.2.1.trans (by decide),
   (C8_card_amended sampleJapan).2.2.2.1.trans (by decide),
   (C8_card_amended sampleJapan).2.2.2.2.mpr ⟨[36, 138], rfl, by decide⟩⟩

/-- A failing featured lookup appends nothing. -/
theorem featuredFetchCard_eq_none_of_failure (t : Transport)
    (h : featuredFailure t = true) : featuredFetchCard t = none := by
  cases t with
  | abortedFetch => rfl
  | failed => rfl
  | resp status body =>
    simp only [featuredFailure] at h
    simp only [featuredFetchCard]
    by_cases hok : (200 ≤ status && status ≤ 299) = true
    · rw [if_pos hok] at h ⊢
      cases body with
      | arr xs =>
        cases xs with
        | nil => rfl
        | cons x l => cases h
      | nonArr => rfl
      | parseError => rfl
      | parseAbort => rfl
    · rw [if_neg hok]

/-- A 2xx response with a non-empty array payload appends a card built from
the first element. -/
theorem featuredFetchCard_resp_arr (s : Nat) (r : RawCountry) (l : List RawCountry)
    (h1 : 200 ≤ s) (h2 : s ≤ 299) :
    featuredFetchCard (Transport.resp s (JsonBody.arr (r :: l))) =
      some (createCountryCard r) := by
  simp only [featuredFetchCard]
  rw [if_pos (by simp [h1, h2])]

/-- C9: with the lookups for names #2 and #5 (indices 1 and 4) failing —
thrown transport error, non-2xx, or empty result — and the other four
resolving with non-empty 2xx array payloads, the featured grid receives
exactly the four successful cards in list order, and the final state has 4
loaded and 2 failed entries; a failure affects only its own entry. -/
theorem C9_fanout_independent (env : Nat → Transport)
    (s0 s2 s3 s5 : Nat) (r0 r2 r3 r5 : RawCountry)
    (l0 l2 l3 l5 : List RawCountry)
    (h0 : env 0 = Transport.resp s0 (JsonBody.arr (r0 :: l0)))
    (hs0 : 200 ≤ s0 ∧ s0 ≤ 299)
    (h2 : env 2 = Transport.resp s2 (JsonBody.arr (r2 :: l2)))
    (hs2 : 200 ≤ s2 ∧ s2 ≤ 299)
    (h3 : env 3 = Transport.resp s3 (JsonBody.arr (r3 :: l3)))
    (hs3 : 200 ≤ s3 ∧ s3 ≤ 299)
    (h5 : env 5 = Transport.resp s5 (JsonBody.arr (r5 :: l5)))
    (hs5 : 200 ≤ s5 ∧ s5 ≤ 299)
    (hf1 : featuredFailure (env 1) = true)
    (hf4 : featuredFailure (env 4) = true) :
    featuredAppends env =
      [createCountryCard r0, createCountryCard r2, createCountryCard r3,
        createCountryCard r5] ∧
    loadedCount (featuredState env) = 4 ∧
    failedCount (featuredState env) = 2 := by
  have c0 : featuredFetchCard (env 0) = some (createCountryCard r0) := by
    rw [h0]; exact featuredFetchCard_resp_arr s0 r0 l0 hs0.1 hs0.2
  have c2 : featuredFetchCard (env 2) = some (createCountryCard r2) := by
    rw [h2]; exact featuredFetchCard_resp_arr s2 r2 l2 hs2.1 hs2.2
  have c3 : featuredFetchCard (env 3) = some (createCountryCard r3) := by
    rw [h3]; exact featuredFetchCard_resp_arr s3 r3 l3 hs3.1 hs3.2
  have c5 : featuredFetchCard (env 5) = some (createCountryCard r5) := by
    rw [h5]; exact featuredFetchCard_resp_arr s5 r5 l5 hs5.1 hs5.2
  have n1 : featuredFetchCard (env 1) = none :=
    featuredFetchCard_eq_none_of_failure (env 1) hf1
  have n4 : featuredFetchCard (env 4) = none :=
    featuredFetchCard_eq_none_of_failure (env 4) hf4
  have hrange : List.range featuredCountries.length = [0, 1, 2, 3, 4, 5] := by decide
  refine ⟨?_, ?_, ?_⟩
  · unfold featuredAppends
    rw [hrange]
    simp [List.filterMap_cons, c0, n1, c2, c3, n4, c5]
  · unfold loadedCount featuredState
    rw [hrange]
    simp [List.countP_cons, featuredEntry, c0, n1, c2, c3, n4, c5]
  · unfold failedCount featuredState
    rw [hrange]
    simp [List.countP_cons, featuredEntry, c0, n1, c2, c3, n4, c5]

/-- Witness for C9: a concrete environment where lookups #2 and #5 fail. -/
theorem C9_fanout_independent_witness :
    featuredAppends witnessEnvC9 =
      [createCountryCard sampleJapan, createCountryCard samplePopZero,
        createCountryCard sampleNoCoords, createCountryCard sampleJapan] ∧
    loadedCount (featuredState witnessEnvC9) = 4 ∧
    failedCount (featuredState witnessEnvC9) = 2 :=
  C9_fanout_independent witnessEnvC9 200 200 200 200
    sampleJapan samplePopZero sampleNoCoords sampleJapan [] [] [] []
    rfl (by decide) rfl (by decide) rfl (by decide) rfl (by decide)
    (by decide) (by decide)

/-- `List.contains` agrees with decidable membership for strings. -/
theorem list_contains_eq_decide_mem (l : List String) (a : String) :
    l.contains a = decide (a ∈ l) := by
  by_cases h : a ∈ l
  · simp [h]
  · simp [h]

/-- Reading back a stored list. -/
theorem getFavourites_val (l : List String) : getFavourites (Stored.val l) = l := rfl

/-- C10 counterexample: from the stored list ["A", "B"], toggling "A" twice
yields ["B", "A"] — the element moves to the end, so the exact list value is
not restored; and from the (externally possible) duplicate store
["J", "J"], a single toggle removes only the first occurrence, so
`isFavourite` stays true instead of negating. -/
theorem C10_counterexample :
    getFavourites (toggleFavourite "A" (toggleFavourite "A" (Stored.val ["A", "B"]))) =
      ["B", "A"] ∧
    (["B", "A"] : List String) ≠ ["A", "B"] ∧
    isFavourite "J" (Stored.val ["J", "J"]) = true ∧
    isFavourite "J" (toggleFavourite "J" (Stored.val ["J", "J"])) = true := by
  decide

/-- C10 amended: when the read-back favourites list contains the name at
most once, a single toggle negates `isFavourite`; toggling twice restores
membership for every name, restores the exact list when the name was
absent, and when the name was present yields the original list with that
occurrence moved to the end; absent or unreadable stores read as the empty
list. -/
theorem C10_toggle_amended (n : String) (s : Stored)
    (hcount : (getFavourites s).count n ≤ 1) :
    isFavourite n (toggleFavourite n s) = !(isFavourite n s) ∧
    (∀ m, isFavourite m (toggleFavourite n (toggleFavourite n s)) = isFavourite m s) ∧
    (isFavourite n s = false →
      getFavourites (toggleFavourite n (toggleFavourite n s)) = getFavourites s) ∧
    (isFavourite n s = true →
      getFavourites (toggleFavourite n (toggleFavourite n s)) =
        (getFavourites s).erase n ++ [n]) ∧
    getFavourites Stored.absent = [] ∧
    getFavourites Stored.unreadable = [] := by
  by_cases hmem : n ∈ getFavourites s
  · have hc : (getFavourites s).contains n = true := by
      rw [list_contains_eq_decide_mem]
      simp [hmem]
    have hfavs : isFavourite n s = true := by
      unfold isFavourite
      exact hc
    have hcnt1 : (getFavourites s).count n = 1 := by
      have hpos := List.count_pos_iff.mpr hmem
      omega
    have hnotmem : n ∉ (getFavourites s).erase n := by
      intro hmem2
      have hcz : ((getFavourites s).erase n).count n = 0 := by
        rw [List.count_erase_self, hcnt1]
      exact absurd hmem2 (List.count_eq_zero.mp hcz)
    have ht1 : toggleFavourite n s = Stored.val ((getFavourites s).erase n) := by
      simp only [toggleFavourite, saveFavourites]
      rw [if_pos hc]
    have hc2 : ((getFavourites s).erase n).contains n = false := by
      rw [list_contains_eq_decide_mem]
      simp [hnotmem]
    have ht2 : toggleFavourite n (toggleFavourite n s) =
        Stored.val ((getFavourites s).erase n ++ [n]) := by
      rw [ht1]
      simp only [toggleFavourite, saveFavourites, getFavourites_val]
      rw [if_neg (by rw [hc2]; simp)]
    refine ⟨?_, ?_, ?_, ?_, rfl, rfl⟩
    · rw [ht1, hfavs]
      simp only [isFavourite, getFavourites_val]
      rw [hc2]
      rfl
    · intro m
      rw [ht2]
      simp only [isFavourite, getFavourites_val]
      rw [list_contains_eq_decide_mem, list_contains_eq_decide_mem]
      by_cases hm : m = n
      · subst hm
        simp [hmem]
      · have hiff : m ∈ (getFavourites s).erase n ++ [n] ↔ m ∈ getFavourites s := by
          rw [List.mem_append]
          constructor
          · rintro (h1 | h1)
            · exact (List.mem_erase_of_ne hm).mp h1
            · exact absurd (List.mem_singleton.mp h1) hm
          · intro h1
            exact Or.inl ((List.mem_erase_of_ne hm).mpr h1)
        exact decide_eq_decide.mpr hiff
    · intro hfalse
      rw [hfavs] at hfalse
      cases hfalse
    · intro _
      rw [ht2]
      exact getFavourites_val _
  · have hc : (getFavourites s).contains n = false := by
      rw [list_contains_eq_decide_mem]
      simp [hmem]
    have hfavs : isFavourite n s = false := by
      unfold isFavourite
      exact hc
    have ht1 : toggleFavourite n s = Stored.val (getFavourites s ++ [n]) := by
      simp only [toggleFavourite, saveFavourites]
      rw [if_neg (by rw [hc]; simp)]
    have hc1 : (getFavourites s ++ [n]).contains n = true := by
      rw [list_contains_eq_decide_mem]
      simp
    have ht2 : toggleFavourite n (toggleFavourite n s) = Stored.val (getFavourites s) := by
      rw [ht1]
      simp only [toggleFavourite, saveFavourites, getFavourites_val]
      rw [if_pos hc1]
      rw [List.erase_append_right _ hmem]
      rw [show ([n] : List String).erase n = [] from by simp, List.append_nil]
    refine ⟨?_, ?_, ?_, ?_, rfl, rfl⟩
    · rw [ht1, hfavs]
      simp only [isFavourite, getFavourites_val]
      rw [hc1]
      rfl
    · intro m
      rw [ht2]
      simp only [isFavourite, getFavourites_val]
    · intro _
      rw [ht2]
      exact getFavourites_val _
    · intro htrue
      rw [hfavs] at htrue
      cases htrue

/-- Witness for C10 amended: store ["A", "B"], name "A" (present once): the
single toggle negates, the double toggle preserves membership of "B" and
moves "A" to the end. -/
theorem C10_toggle_amended_witness :
    isFavourite "A" (toggleFavourite "A" (Stored.val ["A", "B"])) =
      !(isFavourite "A" (Stored.val ["A", "B"])) ∧
    isFavourite "B" (toggleFavourite "A" (toggleFavourite "A" (Stored.val ["A", "B"]))) =
      isFavourite "B" (Stored.val ["A", "B"]) ∧
    getFavourites (toggleFavourite "A" (toggleFavourite "A" (Stored.val ["A", "B"]))) =
      (getFavourites (Stored.val ["A", "B"])).erase "A" ++ ["A"] :=
  ⟨(C10_toggle_amended "A" (Stored.val ["A", "B"]) (by decide)).1,
   (C10_toggle_amended "A" (Stored.val ["A", "B"]) (by decide)).2.1 "B",
   (C10_toggle_amended "A" (Stored.val ["A", "B"]) (by decide)).2.2.2.1 (by decide)⟩
